import Mathlib

/-!
# Task_Tracker — shallow embedding and verification

This file embeds the core of the Task_Tracker repository in Lean 4 and
proves (or refutes) the specification claims about it.

Embedded modules:
* `src/History_Undo.py` — `Task`, `TaskManager`, `TaskManagerWithHistory`
  (snapshot-based undo/redo).
* `src/error_handling_and_validation.py` — `TaskManagerWithValidation`.
* `src/DueDatesAndSorting.py` — `TaskWithDueDateAndPriority` and
  `sort_tasks_by_due_date`.
* `src/advance-querying.py` — `AdvancedTaskManager.filter_tasks`.

Modelling conventions:
* A manager's mutable `self.tasks` list is passed explicitly; methods are
  functions from the old list (or manager state) to the new one.
* Python deep copies become plain value copies (Lean lists are values).
* `datetime` values are modelled as `Nat` (microseconds since the minimum
  representable date), so `datetime.max` is a concrete maximal constant.
* Python calls that raise are modelled with an explicit outcome value,
  paired with the post-call task list, since a mutation performed before a
  raise persists.
-/

namespace TaskTracker

/-- `Task` from `src/History_Undo.py`: a record with `title`, `description`
and `status` fields. -/
structure Task where
  title : String
  description : String
  status : String
deriving DecidableEq

/-- `Task.__init__` with the default argument `status="incomplete"`. -/
def Task.init (title description : String) : Task :=
  ⟨title, description, "incomplete"⟩

/-- `Task.mark_complete`: sets `status` to `"complete"`. -/
def Task.mark_complete (t : Task) : Task :=
  { t with status := "complete" }

/-- `Task.mark_incomplete`: sets `status` to `"incomplete"`. -/
def Task.mark_incomplete (t : Task) : Task :=
  { t with status := "incomplete" }

/-- The value of `task.__dict__.copy()` for a `Task`: a dictionary holding
the three fields.  Snapshots on the history stacks store these. -/
structure TaskDict where
  title : String
  description : String
  status : String
deriving DecidableEq

/-- `task.__dict__.copy()`. -/
def Task.toDict (t : Task) : TaskDict :=
  ⟨t.title, t.description, t.status⟩

/-- `Task(**d)`: rebuilding a `Task` from a snapshot dictionary. -/
def TaskDict.toTask (d : TaskDict) : Task :=
  ⟨d.title, d.description, d.status⟩

theorem TaskDict.toTask_toDict (t : Task) : (t.toDict).toTask = t := rfl

theorem map_toTask_map_toDict (l : List Task) :
    (l.map Task.toDict).map TaskDict.toTask = l := by
  rw [List.map_map]
  simp [Function.comp_def, TaskDict.toTask_toDict]

namespace TaskManager

/-- `TaskManager.add_task`: appends `Task(title, description)`. -/
def add_task (tasks : List Task) (title description : String) : List Task :=
  tasks ++ [Task.init title description]

/-- `TaskManager.remove_task`:
`self.tasks = [task for task in self.tasks if task.title != title]`. -/
def remove_task (tasks : List Task) (title : String) : List Task :=
  tasks.filter (fun task => task.title != title)

/-- `TaskManager.mark_task_complete`: a `for` loop over `self.tasks` that
calls `task.mark_complete()` on every task whose title equals `title`
(there is no `break`, so every match is updated). -/
def mark_task_complete : List Task → String → List Task
  | [], _ => []
  | task :: rest, title =>
      (if task.title == title then task.mark_complete else task)
        :: mark_task_complete rest title

/-- `TaskManager.mark_task_incomplete`: the same loop with
`task.mark_incomplete()`. -/
def mark_task_incomplete : List Task → String → List Task
  | [], _ => []
  | task :: rest, title =>
      (if task.title == title then task.mark_incomplete else task)
        :: mark_task_incomplete rest title

end TaskManager

/-- `TaskManagerWithHistory` from `src/History_Undo.py`: the task list plus
the two snapshot stacks.  Python appends to and pops from the end of the
stack lists, so the most recent snapshot is the last element. -/
structure TaskManagerWithHistory where
  tasks : List Task
  history : List (List TaskDict)
  redo_stack : List (List TaskDict)
deriving DecidableEq

namespace TaskManagerWithHistory

/-- `TaskManagerWithHistory.__init__`: empty store and empty stacks. -/
def init : TaskManagerWithHistory := ⟨[], [], []⟩

/-- `save_state`: append a per-task dict copy of `self.tasks` to
`self.history`, then clear `self.redo_stack`. -/
def save_state (m : TaskManagerWithHistory) : TaskManagerWithHistory :=
  { m with
    history := m.history ++ [m.tasks.map Task.toDict]
    redo_stack := [] }

/-- `undo`: if the history stack is empty, print "No actions to undo." and
return; otherwise append a snapshot of the current tasks to the redo stack,
pop the last history entry and rebuild `self.tasks` from it.  The printed
message is returned alongside the new state. -/
def undo (m : TaskManagerWithHistory) : TaskManagerWithHistory × String :=
  match m.history.getLast? with
  | none => (m, "No actions to undo.")
  | some previous_state =>
      ({ tasks := previous_state.map TaskDict.toTask
         history := m.history.dropLast
         redo_stack := m.redo_stack ++ [m.tasks.map Task.toDict] },
       "Undo successful.")

/-- `redo`: symmetric to `undo`, popping from the redo stack and pushing
onto the history stack. -/
def redo (m : TaskManagerWithHistory) : TaskManagerWithHistory × String :=
  match m.redo_stack.getLast? with
  | none => (m, "No actions to redo.")
  | some next_state =>
      ({ tasks := next_state.map TaskDict.toTask
         history := m.history ++ [m.tasks.map Task.toDict]
         redo_stack := m.redo_stack.dropLast },
       "Redo successful.")

/-- Overridden `add_task`: `save_state` first, then the base append. -/
def add_task (m : TaskManagerWithHistory) (title description : String) :
    TaskManagerWithHistory :=
  let m := m.save_state
  { m with tasks := TaskManager.add_task m.tasks title description }

/-- Overridden `remove_task`: `save_state` first, then the base removal. -/
def remove_task (m : TaskManagerWithHistory) (title : String) :
    TaskManagerWithHistory :=
  let m := m.save_state
  { m with tasks := TaskManager.remove_task m.tasks title }

/-- Overridden `mark_task_complete`: `save_state` first, then the base
status update. -/
def mark_task_complete (m : TaskManagerWithHistory) (title : String) :
    TaskManagerWithHistory :=
  let m := m.save_state
  { m with tasks := TaskManager.mark_task_complete m.tasks title }

/-- Overridden `mark_task_incomplete`: `save_state` first, then the base
status update. -/
def mark_task_incomplete (m : TaskManagerWithHistory) (title : String) :
    TaskManagerWithHistory :=
  let m := m.save_state
  { m with tasks := TaskManager.mark_task_incomplete m.tasks title }

end TaskManagerWithHistory

theorem mark_task_complete_eq_map (ts : List Task) (title : String) :
    TaskManager.mark_task_complete ts title
      = ts.map (fun t => if t.title == title then t.mark_complete else t) := by
  induction ts with
  | nil => rfl
  | cons t rest ih => simp [TaskManager.mark_task_complete, ih]

theorem mark_task_incomplete_eq_map (ts : List Task) (title : String) :
    TaskManager.mark_task_incomplete ts title
      = ts.map (fun t => if t.title == title then t.mark_incomplete else t) := by
  induction ts with
  | nil => rfl
  | cons t rest ih => simp [TaskManager.mark_task_incomplete, ih]

theorem mark_task_complete_noop (ts : List Task) (title : String)
    (h : ∀ t ∈ ts, t.title ≠ title) :
    TaskManager.mark_task_complete ts title = ts := by
  have hid : ∀ t ∈ ts, (if t.title == title then t.mark_complete else t) = t := by
    intro t ht
    simp [h t ht]
  rw [mark_task_complete_eq_map, List.map_congr_left hid]
  exact List.map_id ts

theorem mark_task_incomplete_noop (ts : List Task) (title : String)
    (h : ∀ t ∈ ts, t.title ≠ title) :
    TaskManager.mark_task_incomplete ts title = ts := by
  have hid : ∀ t ∈ ts, (if t.title == title then t.mark_incomplete else t) = t := by
    intro t ht
    simp [h t ht]
  rw [mark_task_incomplete_eq_map, List.map_congr_left hid]
  exact List.map_id ts

theorem remove_task_noop (ts : List Task) (title : String)
    (h : ∀ t ∈ ts, t.title ≠ title) :
    TaskManager.remove_task ts title = ts := by
  rw [TaskManager.remove_task, List.filter_eq_self.mpr]
  intro a ha
  simp [h a ha]

theorem undo_of_empty_history (tasks : List Task)
    (rest : List (List TaskDict)) :
    TaskManagerWithHistory.undo ⟨tasks, [], rest⟩
      = (⟨tasks, [], rest⟩, "No actions to undo.") := rfl

theorem undo_of_concat_history (tasks : List Task)
    (stack rest : List (List TaskDict)) (s : List TaskDict) :
    TaskManagerWithHistory.undo ⟨tasks, stack ++ [s], rest⟩
      = (⟨s.map TaskDict.toTask, stack, rest ++ [tasks.map Task.toDict]⟩,
         "Undo successful.") := by
  simp [TaskManagerWithHistory.undo, List.getLast?_concat, List.dropLast_concat]

theorem redo_of_empty_redo_stack (tasks : List Task)
    (stack : List (List TaskDict)) :
    TaskManagerWithHistory.redo ⟨tasks, stack, []⟩
      = (⟨tasks, stack, []⟩, "No actions to redo.") := rfl

theorem redo_of_concat_redo_stack (tasks : List Task)
    (stack rest : List (List TaskDict)) (s : List TaskDict) :
    TaskManagerWithHistory.redo ⟨tasks, stack, rest ++ [s]⟩
      = (⟨s.map TaskDict.toTask, stack ++ [tasks.map Task.toDict], rest⟩,
         "Redo successful.") := by
  simp [TaskManagerWithHistory.redo, List.getLast?_concat, List.dropLast_concat]

/-- The C1 scenario state after `add("A","d1")`, `add("B","d2")`,
`remove("A")` from an empty `TaskManagerWithHistory`. -/
def scenario_after_remove : TaskManagerWithHistory :=
  ((TaskManagerWithHistory.init.add_task "A" "d1").add_task
    "B" "d2").remove_task "A"

/-- The C1 scenario state after one further `undo()`. -/
def scenario_after_undo1 : TaskManagerWithHistory :=
  scenario_after_remove.undo.1

/-- The C1 scenario state after a second `undo()`. -/
def scenario_after_undo2 : TaskManagerWithHistory :=
  scenario_after_undo1.undo.1

/-- The C1 scenario state after two further `redo()` calls. -/
def scenario_after_redo2 : TaskManagerWithHistory :=
  (scenario_after_undo2.redo.1).redo.1

/-- C1: starting from an empty `TaskManagerWithHistory`, the sequence
`add("A","d1")`, `add("B","d2")`, `remove("A")` yields titles `[B]`; a
first `undo()` yields `[A,B]`; a second `undo()` yields `[A]`; and two
`redo()` calls then yield `[B]`. -/
theorem claim_C1_undo_redo_scenario :
    scenario_after_remove.tasks.map Task.title = ["B"] ∧
    scenario_after_undo1.tasks.map Task.title = ["A", "B"] ∧
    scenario_after_undo2.tasks.map Task.title = ["A"] ∧
    scenario_after_redo2.tasks.map Task.title = ["B"] := by
  decide

/-- C2: every mutating operation of `TaskManagerWithHistory` (`add_task`,
`remove_task`, `mark_task_complete`, `mark_task_incomplete`) pushes a copy
of the pre-mutation task list (as per-task dict copies, i.e. a deep copy)
onto the undo stack, clears the redo stack, and only then applies the base
mutation to the task list. -/
theorem claim_C2_mutators_push_snapshot_and_clear_redo
    (m : TaskManagerWithHistory) (title description : String) :
    ((m.add_task title description).history
        = m.history ++ [m.tasks.map Task.toDict] ∧
      (m.add_task title description).redo_stack = [] ∧
      (m.add_task title description).tasks
        = TaskManager.add_task m.tasks title description) ∧
    ((m.remove_task title).history = m.history ++ [m.tasks.map Task.toDict] ∧
      (m.remove_task title).redo_stack = [] ∧
      (m.remove_task title).tasks = TaskManager.remove_task m.tasks title) ∧
    ((m.mark_task_complete title).history
        = m.history ++ [m.tasks.map Task.toDict] ∧
      (m.mark_task_complete title).redo_stack = [] ∧
      (m.mark_task_complete title).tasks
        = TaskManager.mark_task_complete m.tasks title) ∧
    ((m.mark_task_incomplete title).history
        = m.history ++ [m.tasks.map Task.toDict] ∧
      (m.mark_task_incomplete title).redo_stack = [] ∧
      (m.mark_task_incomplete title).tasks
        = TaskManager.mark_task_incomplete m.tasks title) :=
  ⟨⟨rfl, rfl, rfl⟩, ⟨rfl, rfl, rfl⟩, ⟨rfl, rfl, rfl⟩, ⟨rfl, rfl, rfl⟩⟩

/-- C3: `undo()` on an empty undo stack reports "No actions to undo." and
changes nothing; otherwise it pushes a snapshot of the current tasks onto
the redo stack and restores the popped top of the undo stack.  `redo()` is
symmetric with the two stacks swapped. -/
theorem claim_C3_undo_redo_semantics (tasks : List Task)
    (stack rest : List (List TaskDict)) (s : List TaskDict) :
    TaskManagerWithHistory.undo ⟨tasks, [], rest⟩
      = (⟨tasks, [], rest⟩, "No actions to undo.") ∧
    TaskManagerWithHistory.undo ⟨tasks, stack ++ [s], rest⟩
      = (⟨s.map TaskDict.toTask, stack, rest ++ [tasks.map Task.toDict]⟩,
         "Undo successful.") ∧
    TaskManagerWithHistory.redo ⟨tasks, stack, []⟩
      = (⟨tasks, stack, []⟩, "No actions to redo.") ∧
    TaskManagerWithHistory.redo ⟨tasks, stack, rest ++ [s]⟩
      = (⟨s.map TaskDict.toTask, stack ++ [tasks.map Task.toDict], rest⟩,
         "Redo successful.") :=
  ⟨undo_of_empty_history tasks rest,
   undo_of_concat_history tasks stack rest s,
   redo_of_empty_redo_stack tasks stack,
   redo_of_concat_redo_stack tasks stack rest s⟩

/-- C10: a mutating call whose title is absent from the task list leaves
the task list unchanged, yet still pushes a snapshot onto the undo stack
and clears the redo stack (discarding any pending redo history); the
subsequent `undo()` then restores a task list identical to the current
one. -/
theorem claim_C10_noop_mutation_still_snapshots
    (m : TaskManagerWithHistory) (title : String)
    (habs : ∀ t ∈ m.tasks, t.title ≠ title) :
    ((m.remove_task title).tasks = m.tasks ∧
      (m.mark_task_complete title).tasks = m.tasks ∧
      (m.mark_task_incomplete title).tasks = m.tasks) ∧
    ((m.remove_task title).history = m.history ++ [m.tasks.map Task.toDict] ∧
      (m.remove_task title).redo_stack = [] ∧
      (m.mark_task_complete title).history
        = m.history ++ [m.tasks.map Task.toDict] ∧
      (m.mark_task_complete title).redo_stack = [] ∧
      (m.mark_task_incomplete title).history
        = m.history ++ [m.tasks.map Task.toDict] ∧
      (m.mark_task_incomplete title).redo_stack = []) ∧
    ((m.remove_task title).undo.1.tasks = m.tasks ∧
      (m.mark_task_complete title).undo.1.tasks = m.tasks ∧
      (m.mark_task_incomplete title).undo.1.tasks = m.tasks) := by
  refine ⟨⟨?_, ?_, ?_⟩, ⟨rfl, rfl, rfl, rfl, rfl, rfl⟩, ⟨?_, ?_, ?_⟩⟩
  · exact remove_task_noop m.tasks title habs
  · exact mark_task_complete_noop m.tasks title habs
  · exact mark_task_incomplete_noop m.tasks title habs
  · show (TaskManagerWithHistory.undo
      ⟨TaskManager.remove_task m.tasks title,
        m.history ++ [m.tasks.map Task.toDict], []⟩).1.tasks = m.tasks
    rw [undo_of_concat_history, map_toTask_map_toDict]
  · show (TaskManagerWithHistory.undo
      ⟨TaskManager.mark_task_complete m.tasks title,
        m.history ++ [m.tasks.map Task.toDict], []⟩).1.tasks = m.tasks
    rw [undo_of_concat_history, map_toTask_map_toDict]
  · show (TaskManagerWithHistory.undo
      ⟨TaskManager.mark_task_incomplete m.tasks title,
        m.history ++ [m.tasks.map Task.toDict], []⟩).1.tasks = m.tasks
    rw [undo_of_concat_history, map_toTask_map_toDict]

/-- Witness for C10 at a concrete manager state: one task titled "A", a
pending redo entry, and a mutating call on the absent title "B". -/
theorem claim_C10_witness :
    let m : TaskManagerWithHistory :=
      ⟨[Task.init "A" "d"], [], [[⟨"Z", "z", "incomplete"⟩]]⟩
    ((m.remove_task "B").tasks = m.tasks ∧
      (m.mark_task_complete "B").tasks = m.tasks ∧
      (m.mark_task_incomplete "B").tasks = m.tasks) ∧
    ((m.remove_task "B").history = m.history ++ [m.tasks.map Task.toDict] ∧
      (m.remove_task "B").redo_stack = [] ∧
      (m.mark_task_complete "B").history
        = m.history ++ [m.tasks.map Task.toDict] ∧
      (m.mark_task_complete "B").redo_stack = [] ∧
      (m.mark_task_incomplete "B").history
        = m.history ++ [m.tasks.map Task.toDict] ∧
      (m.mark_task_incomplete "B").redo_stack = []) ∧
    ((m.remove_task "B").undo.1.tasks = m.tasks ∧
      (m.mark_task_complete "B").undo.1.tasks = m.tasks ∧
      (m.mark_task_incomplete "B").undo.1.tasks = m.tasks) :=
  claim_C10_noop_mutation_still_snapshots
    ⟨[Task.init "A" "d"], [], [[⟨"Z", "z", "incomplete"⟩]]⟩ "B" (by decide)

/-- C4 counterexample: with two tasks both titled "A", the claim predicts
that `mark_task_complete "A"` updates only the first one and leaves the
second with status "incomplete"; the code updates both (the loop has no
`break`), so the claimed result is refuted at this input. -/
theorem claim_C4_counterexample :
    TaskManager.mark_task_complete
        [⟨"A", "d1", "incomplete"⟩, ⟨"A", "d2", "incomplete"⟩] "A"
      = [⟨"A", "d1", "complete"⟩, ⟨"A", "d2", "complete"⟩] ∧
    TaskManager.mark_task_complete
        [⟨"A", "d1", "incomplete"⟩, ⟨"A", "d2", "incomplete"⟩] "A"
      ≠ [⟨"A", "d1", "complete"⟩, ⟨"A", "d2", "incomplete"⟩] := by
  decide

/-- C4 (amended): `mark_task_complete` and `mark_task_incomplete` update
the status of every task whose title equals the argument (not only the
first); when no task has the title, the call is a no-op. -/
theorem claim_C4_set_status_updates_all_matches
    (ts : List Task) (title : String) :
    TaskManager.mark_task_complete ts title
      = ts.map (fun t => if t.title == title then t.mark_complete else t) ∧
    TaskManager.mark_task_incomplete ts title
      = ts.map (fun t => if t.title == title then t.mark_incomplete else t) ∧
    ((∀ t ∈ ts, t.title ≠ title) →
      TaskManager.mark_task_complete ts title = ts ∧
      TaskManager.mark_task_incomplete ts title = ts) :=
  ⟨mark_task_complete_eq_map ts title,
   mark_task_incomplete_eq_map ts title,
   fun habs => ⟨mark_task_complete_noop ts title habs,
     mark_task_incomplete_noop ts title habs⟩⟩

/-- Witness for C4 (amended) at a concrete list with a duplicated title
and an absent title. -/
theorem claim_C4_witness :
    (TaskManager.mark_task_complete [Task.init "X" "d"] "A"
        = [Task.init "X" "d"] ∧
      TaskManager.mark_task_incomplete [Task.init "X" "d"] "A"
        = [Task.init "X" "d"]) ∧
    TaskManager.mark_task_complete
        [⟨"A", "d1", "incomplete"⟩, ⟨"A", "d2", "incomplete"⟩] "A"
      = [⟨"A", "d1", "incomplete"⟩, ⟨"A", "d2", "incomplete"⟩].map
          (fun t => if t.title == "A" then t.mark_complete else t) :=
  ⟨(claim_C4_set_status_updates_all_matches [Task.init "X" "d"] "A").2.2
      (by decide),
   (claim_C4_set_status_updates_all_matches
      [⟨"A", "d1", "incomplete"⟩, ⟨"A", "d2", "incomplete"⟩] "A").1⟩

/-- C5: `remove_task` deletes exactly the tasks whose title equals the
argument (String equality, hence case-sensitive): the result is a sublist
of the input (relative order preserved), every task with the given title
occurs zero times in it, every other task keeps its multiplicity, and when
no task matches the list is returned unchanged (no error is raised — the
function is total). -/
theorem claim_C5_remove_task_semantics (ts : List Task) (title : String) :
    (TaskManager.remove_task ts title).Sublist ts ∧
    (∀ t : Task, t ∈ TaskManager.remove_task ts title
      ↔ t ∈ ts ∧ t.title ≠ title) ∧
    (∀ t : Task, t.title = title →
      (TaskManager.remove_task ts title).count t = 0) ∧
    (∀ t : Task, t.title ≠ title →
      (TaskManager.remove_task ts title).count t = ts.count t) ∧
    ((∀ t ∈ ts, t.title ≠ title) → TaskManager.remove_task ts title = ts) := by
  refine ⟨List.filter_sublist ts, ?_, ?_, ?_, remove_task_noop ts title⟩
  · intro t
    simp [TaskManager.remove_task, List.mem_filter]
  · intro t ht
    rw [List.count_eq_zero]
    intro hmem
    rw [TaskManager.remove_task, List.mem_filter] at hmem
    simp [ht] at hmem
  · intro t ht
    rw [TaskManager.remove_task, List.count_filter]
    simp [ht]

/-- Witness for C5 at a concrete list with a duplicated title "A" and a
lower-case variant "a" (checking case-sensitivity): removal of "A"
preserves order, and removal of the absent "Z" is a no-op. -/
theorem claim_C5_witness :
    let ts : List Task :=
      [Task.init "A" "d1", Task.init "a" "d2", Task.init "A" "d3",
        Task.init "B" "d4"]
    (TaskManager.remove_task ts "A").Sublist ts ∧
    (TaskManager.remove_task ts "A").count (Task.init "A" "d1") = 0 ∧
    (TaskManager.remove_task ts "A").count (Task.init "a" "d2")
      = ts.count (Task.init "a" "d2") ∧
    TaskManager.remove_task ts "Z" = ts :=
  ⟨(claim_C5_remove_task_semantics _ "A").1,
   (claim_C5_remove_task_semantics _ "A").2.2.1 (Task.init "A" "d1") (by decide),
   (claim_C5_remove_task_semantics _ "A").2.2.2.1 (Task.init "a" "d2")
     (by decide),
   (claim_C5_remove_task_semantics _ "Z").2.2.2.2 (by decide)⟩

/-- Outcome of a Python call: a normal return, or a raised exception
identified by its class name. -/
inductive PyOutcome where
  | ok : PyOutcome
  | raised (exn : String) : PyOutcome
deriving DecidableEq

/-- Python's `not s.strip()`: true exactly when `s` is empty or consists
only of whitespace. -/
def stripIsBlank (s : String) : Bool :=
  s.toList.all Char.isWhitespace

namespace TaskManagerWithValidation

/-!
`TaskManagerWithValidation` from `src/error_handling_and_validation.py`.

In that file the `import logging` line and the `InvalidInputError` /
`TaskNotFoundError` exception classes are commented out, while the method
bodies still call `logging.error` / `logging.info` and raise those
exception classes.  At runtime every path through these methods therefore
raises `NameError` (the first undefined name reached is `logging`):

* failure paths evaluate `logging.error(...)` before raising the intended
  exception, so they raise `NameError` with the store unchanged;
* success paths perform the base mutation first and then evaluate
  `logging.info(...)`, so they raise `NameError` after the mutation.

Each method below returns the outcome paired with the post-call task
list (mutations performed before the raise persist).
-/

/-- `TaskManagerWithValidation.add_task`: blank-input check, then the base
append, with the `NameError` behaviour described above. -/
def add_task (tasks : List Task) (title description : String) :
    PyOutcome × List Task :=
  if stripIsBlank title || stripIsBlank description then
    (.raised "NameError", tasks)
  else
    (.raised "NameError", TaskManager.add_task tasks title description)

/-- `TaskManagerWithValidation.remove_task`: membership check on the list
of titles, then the base removal, with the `NameError` behaviour described
above. -/
def remove_task (tasks : List Task) (title : String) :
    PyOutcome × List Task :=
  if (tasks.map Task.title).contains title then
    (.raised "NameError", TaskManager.remove_task tasks title)
  else
    (.raised "NameError", tasks)

/-- `TaskManagerWithValidation.mark_task_complete`: membership check, then
the base status update, with the `NameError` behaviour described above. -/
def mark_task_complete (tasks : List Task) (title : String) :
    PyOutcome × List Task :=
  if (tasks.map Task.title).contains title then
    (.raised "NameError", TaskManager.mark_task_complete tasks title)
  else
    (.raised "NameError", tasks)

/-- `TaskManagerWithValidation.mark_task_incomplete`: membership check,
then the base status update, with the `NameError` behaviour described
above. -/
def mark_task_incomplete (tasks : List Task) (title : String) :
    PyOutcome × List Task :=
  if (tasks.map Task.title).contains title then
    (.raised "NameError", TaskManager.mark_task_incomplete tasks title)
  else
    (.raised "NameError", tasks)

end TaskManagerWithValidation

/-- C6: evaluation of the validated `add_task`.  The claim says a blank
title or description fails with `InvalidInput` and a non-blank pair is
appended cleanly; in the code the `logging` import and the
`InvalidInputError` class are commented out, so the blank-input calls
raise `NameError` (store unchanged, no history recorded — this class has
no history at all), and even the valid call raises `NameError` after
appending the task. -/
theorem claim_C6_validated_add_task_eval :
    TaskManagerWithValidation.add_task [] "" "x"
      = (.raised "NameError", []) ∧
    TaskManagerWithValidation.add_task [] "   " "x"
      = (.raised "NameError", []) ∧
    TaskManagerWithValidation.add_task [] "A" " "
      = (.raised "NameError", []) ∧
    TaskManagerWithValidation.add_task [] "A" "x"
      = (.raised "NameError", [Task.init "A" "x"]) := by
  decide

/-- C7: evaluation of the validated `remove_task` and status-change
operations.  The claim says a missing title fails with `NotFound` and
leaves the list unchanged; in the code the `logging` import and the
`TaskNotFoundError` class are commented out, so the not-found calls raise
`NameError` (the list is indeed left unchanged), and even the found-title
call raises `NameError` after mutating. -/
theorem claim_C7_validated_not_found_eval :
    TaskManagerWithValidation.remove_task [Task.init "A" "d"] "X"
      = (.raised "NameError", [Task.init "A" "d"]) ∧
    TaskManagerWithValidation.mark_task_complete [Task.init "A" "d"] "X"
      = (.raised "NameError", [Task.init "A" "d"]) ∧
    TaskManagerWithValidation.mark_task_incomplete [Task.init "A" "d"] "X"
      = (.raised "NameError", [Task.init "A" "d"]) ∧
    TaskManagerWithValidation.remove_task [Task.init "A" "d"] "A"
      = (.raised "NameError", []) := by
  decide

/-- `TaskWithDueDateAndPriority` from `src/DueDatesAndSorting.py`.
`due_date` holds the `datetime` parsed from the "YYYY-MM-DD" argument
(modelled as microseconds since the minimum representable datetime,
0001-01-01 00:00:00), or `none` when no date was given. -/
structure TaskWithDueDateAndPriority where
  title : String
  description : String
  status : String
  due_date : Option Nat
  priority : String
deriving DecidableEq

/-- Microseconds per day. -/
def usPerDay : Nat := 86400000000

/-- Python's `datetime.max` (9999-12-31 23:59:59.999999) in microseconds
since the minimum datetime: 3652058 whole days plus the last day's final
microsecond.  A datetime produced by `strptime(_, "%Y-%m-%d")` has time
00:00:00, so it is a multiple of `usPerDay` at most `3652058 * usPerDay`
and hence strictly below this value. -/
def datetimeMax : Nat := 3652058 * usPerDay + 86399999999

/-- The sort key `task.due_date or datetime.max`: a `datetime` object is
always truthy and `None` is falsy, so the key is the due date when present
and `datetime.max` otherwise. -/
def dueKey (t : TaskWithDueDateAndPriority) : Nat :=
  t.due_date.getD datetimeMax

/-- `sort_tasks_by_due_date`:
`self.tasks.sort(key=lambda task: task.due_date or datetime.max)`.
Python's `list.sort` is a stable sort, modelled by the stable `mergeSort`
with the comparison induced by the same key. -/
def sort_tasks_by_due_date (tasks : List TaskWithDueDateAndPriority) :
    List TaskWithDueDateAndPriority :=
  tasks.mergeSort (fun a b => decide (dueKey a ≤ dueKey b))

theorem dueKey_trans (a b c : TaskWithDueDateAndPriority) :
    decide (dueKey a ≤ dueKey b) → decide (dueKey b ≤ dueKey c) →
    decide (dueKey a ≤ dueKey c) := by
  simp only [decide_eq_true_eq]
  exact Nat.le_trans

theorem dueKey_total (a b : TaskWithDueDateAndPriority) :
    (decide (dueKey a ≤ dueKey b) || decide (dueKey b ≤ dueKey a)) = true := by
  simpa using Nat.le_total (dueKey a) (dueKey b)

/-- Stability of the due-date sort, stated through filters: the tasks
whose key equals any fixed value appear in the output exactly as they
appear in the input. -/
theorem sort_tasks_by_due_date_filter_key
    (ts : List TaskWithDueDateAndPriority) (k : Nat) :
    (sort_tasks_by_due_date ts).filter (fun t => dueKey t == k)
      = ts.filter (fun t => dueKey t == k) := by
  have hc : (ts.filter (fun t => dueKey t == k)).Pairwise
      (fun a b => decide (dueKey a ≤ dueKey b)) := by
    apply List.pairwise_of_forall_mem_list
    intro a ha b hb
    have ha' := (List.mem_filter.mp ha).2
    have hb' := (List.mem_filter.mp hb).2
    simp only [beq_iff_eq] at ha' hb'
    simp [ha', hb']
  have hsub : (ts.filter (fun t => dueKey t == k)).Sublist
      (sort_tasks_by_due_date ts) :=
    List.sublist_mergeSort dueKey_trans dueKey_total hc (List.filter_sublist ts)
  have hsub2 : (ts.filter (fun t => dueKey t == k)).Sublist
      ((sort_tasks_by_due_date ts).filter (fun t => dueKey t == k)) := by
    have h2 := hsub.filter (fun t => dueKey t == k)
    simp only [List.filter_filter, Bool.and_self] at h2
    exact h2
  have hperm : ((sort_tasks_by_due_date ts).filter (fun t => dueKey t == k)).Perm
      (ts.filter (fun t => dueKey t == k)) :=
    (List.mergeSort_perm ts _).filter _
  exact ((hsub2.eq_of_length hperm.length_eq.symm).symm)

/-- C8: `sort_tasks_by_due_date` permutes the task list so that the keys
are non-decreasing; since a parsed due date is strictly below
`datetime.max` (the hypothesis), every task without a due date comes after
every dated task, and tasks with equal keys — in particular all dateless
tasks — keep their original relative order (stability). -/
theorem claim_C8_sort_by_due_date (ts : List TaskWithDueDateAndPriority)
    (hdates : ∀ t ∈ ts, t.due_date.getD 0 < datetimeMax) :
    (sort_tasks_by_due_date ts).Perm ts ∧
    (sort_tasks_by_due_date ts).Pairwise (fun a b => dueKey a ≤ dueKey b) ∧
    (sort_tasks_by_due_date ts).Pairwise
      (fun a b => a.due_date = none → b.due_date = none) ∧
    (∀ k : Nat, (sort_tasks_by_due_date ts).filter (fun t => dueKey t == k)
      = ts.filter (fun t => dueKey t == k)) := by
  have hperm : (sort_tasks_by_due_date ts).Perm ts := List.mergeSort_perm ts _
  have hsorted : (sort_tasks_by_due_date ts).Pairwise
      (fun a b => dueKey a ≤ dueKey b) := by
    have h := @List.sorted_mergeSort TaskWithDueDateAndPriority
      (fun a b => decide (dueKey a ≤ dueKey b)) dueKey_trans dueKey_total ts
    exact h.imp (by intro a b hab; exact decide_eq_true_eq.mp hab)
  refine ⟨hperm, hsorted, ?_, sort_tasks_by_due_date_filter_key ts⟩
  refine hsorted.imp_of_mem ?_
  intro a b ha hb hle hnone
  cases hbd : b.due_date with
  | none => rfl
  | some d =>
      exfalso
      have hbmem : b ∈ ts := hperm.mem_iff.mp hb
      have hdb := hdates b hbmem
      rw [hbd, Option.getD_some] at hdb
      have hka : dueKey a = datetimeMax := by simp [dueKey, hnone]
      have hkb : dueKey b = d := by simp [dueKey, hbd]
      omega

/-- Witness for C8 at a concrete list: two dated tasks out of order, a
tie on the earlier date, and a dateless task. -/
theorem claim_C8_witness :
    let ts : List TaskWithDueDateAndPriority :=
      [⟨"late", "d1", "incomplete", some (200 * usPerDay), "medium"⟩,
        ⟨"none1", "d2", "incomplete", none, "medium"⟩,
        ⟨"early1", "d3", "incomplete", some (100 * usPerDay), "medium"⟩,
        ⟨"early2", "d4", "incomplete", some (100 * usPerDay), "medium"⟩]
    (sort_tasks_by_due_date ts).Perm ts ∧
    (sort_tasks_by_due_date ts).Pairwise (fun a b => dueKey a ≤ dueKey b) ∧
    (sort_tasks_by_due_date ts).Pairwise
      (fun a b => a.due_date = none → b.due_date = none) ∧
    (∀ k : Nat, (sort_tasks_by_due_date ts).filter (fun t => dueKey t == k)
      = ts.filter (fun t => dueKey t == k)) :=
  claim_C8_sort_by_due_date
    [⟨"late", "d1", "incomplete", some (200 * usPerDay), "medium"⟩,
      ⟨"none1", "d2", "incomplete", none, "medium"⟩,
      ⟨"early1", "d3", "incomplete", some (100 * usPerDay), "medium"⟩,
      ⟨"early2", "d4", "incomplete", some (100 * usPerDay), "medium"⟩]
    (by decide)

/-- Python's `str.lower()` (ASCII case folding per character). -/
def pyLower (s : String) : String :=
  s.map Char.toLower

/-- Python's substring test `needle in haystack` on strings: `needle`
occurs contiguously in `haystack` (the empty string occurs in every
string). -/
def pySubstr (needle haystack : String) : Bool :=
  decide (List.IsInfix needle.toList haystack.toList)

/-- `keyword.lower() in task.title.lower() or
keyword.lower() in task.description.lower()`. -/
def keywordMatches (keyword : String) (t : Task) : Bool :=
  pySubstr (pyLower keyword) (pyLower t.title) ||
    pySubstr (pyLower keyword) (pyLower t.description)

/-- Python truthiness of the `status: str = None` argument: `None` and the
empty string are falsy; every other string is truthy. -/
def truthyStr : Option String → Bool
  | none => false
  | some s => !(s == "")

/-- Python truthiness of the `keywords: list = None` argument: `None` and
the empty list are falsy; every non-empty list is truthy. -/
def truthyList : Option (List String) → Bool
  | none => false
  | some l => !l.isEmpty

namespace AdvancedTaskManager

/-- `AdvancedTaskManager.filter_tasks` from `src/advance-querying.py`:
starting from `self.tasks`, `if status:` applies the status filter only
when `status` is truthy, and `if keywords:` applies the keyword filter
(at least one keyword occurs case-insensitively in title or description)
only when `keywords` is truthy. -/
def filter_tasks (tasks : List Task) (status : Option String)
    (keywords : Option (List String)) : List Task :=
  let filtered_tasks := tasks
  let filtered_tasks :=
    if truthyStr status then
      filtered_tasks.filter (fun task => task.status == status.getD "")
    else filtered_tasks
  let filtered_tasks :=
    if truthyList keywords then
      filtered_tasks.filter (fun task =>
        (keywords.getD []).any (fun keyword => keywordMatches keyword task))
    else filtered_tasks
  filtered_tasks

end AdvancedTaskManager

/-- The combined filter as the specification words it (for comparison with
the code): a task passes when it matches the status whenever a status is
given, and contains at least one of the keywords whenever a keyword list
is given; an absent (`none`) filter passes all tasks. -/
def filter_tasks_per_spec (tasks : List Task) (status : Option String)
    (keywords : Option (List String)) : List Task :=
  tasks.filter (fun task =>
    (match status with
      | none => true
      | some s => task.status == s) &&
    (match keywords with
      | none => true
      | some ks => ks.any (fun keyword => keywordMatches keyword task)))

/-- C9 counterexample: with the keyword list present but empty, the claim
(read as the spec words it) requires the result to contain only tasks
matching at least one of the zero keywords — i.e. no task at all — but the
code treats the empty list as falsy (`if keywords:`) and passes every
task through. -/
theorem claim_C9_counterexample :
    AdvancedTaskManager.filter_tasks [Task.init "A" "d"] none (some [])
      = [Task.init "A" "d"] ∧
    filter_tasks_per_spec [Task.init "A" "d"] none (some []) = [] ∧
    AdvancedTaskManager.filter_tasks [Task.init "A" "d"] none (some [])
      ≠ filter_tasks_per_spec [Task.init "A" "d"] none (some []) := by
  decide

/-- C9 (amended): `filter_tasks` equals a single pass over the store that
keeps exactly the tasks passing the status test whenever `status` is
truthy (not `None` and not `""`) and the keyword test whenever `keywords`
is truthy (not `None` and not `[]`); a falsy filter passes all tasks.  In
particular the result is a subsequence of the store, so its order follows
store order, and the store itself is never changed (the function is
pure). -/
theorem claim_C9_filter_tasks_semantics (tasks : List Task)
    (status : Option String) (keywords : Option (List String)) :
    AdvancedTaskManager.filter_tasks tasks status keywords
      = tasks.filter (fun task =>
          (!truthyStr status || task.status == status.getD "") &&
          (!truthyList keywords ||
            (keywords.getD []).any
              (fun keyword => keywordMatches keyword task))) ∧
    (AdvancedTaskManager.filter_tasks tasks status keywords).Sublist tasks := by
  constructor
  · unfold AdvancedTaskManager.filter_tasks
    cases hs : truthyStr status <;> cases hk : truthyList keywords <;>
      simp [List.filter_filter, Bool.and_comm]
  · unfold AdvancedTaskManager.filter_tasks
    cases hs : truthyStr status <;> cases hk : truthyList keywords <;> simp

end TaskTracker
